import Mathlib

/-!
Verification of the Docker-based code-verification subsystem of the
gamified-learning-platform repository, centred on
`crates/runner/src/parser.rs` (`parse_cargo_output` and its helpers),
`crates/runner/src/docker.rs` (the exit-code post-processing of
`run_container`), `crates/runner/src/types.rs` (`VerificationResult` and
its constructors) and `crates/runner/src/pool.rs` (`ContainerPool`).

Strings are modelled as lists of characters (`Str`); all concrete inputs
used below are ASCII, for which Rust's byte indices coincide with
character indices.  `u32` counters are modelled as `Nat` reduced modulo
`2 ^ 32` wherever the Rust code performs `u32` arithmetic (release-mode
wrapping semantics).  The JSON decoding performed by the external
`serde_json` crate is abstracted as a parameter
`decode : Str → Option CargoMessage`; theorems hold for every decoder,
and concrete evaluations use `demoDecode`, which maps a handful of
literal cargo JSON lines exactly the way `serde_json` does.
A Rust panic is modelled as `Except.error ()`.
-/

set_option maxRecDepth 8000

namespace Runner

/-- Strings as character lists; Rust byte indexing equals list indexing on ASCII. -/
abbrev Str := List Char

/-- The newline character. -/
def nlChar : Char := Char.ofNat 10

/-- The carriage-return character. -/
def crChar : Char := Char.ofNat 13

/-- The horizontal-tab character. -/
def tabChar : Char := Char.ofNat 9

/-- The space character. -/
def spChar : Char := Char.ofNat 32

/-- The opening-brace character. -/
def obChar : Char := Char.ofNat 123

/-- The single-quote character. -/
def sqChar : Char := Char.ofNat 39

/-- ASCII whitespace recognised by `str::trim` on the inputs considered here. -/
def isWsp (c : Char) : Bool :=
  c = spChar || c = tabChar || c = nlChar || c = crChar

/-- Split a string at every newline, keeping all (possibly empty) segments. -/
def splitOnNl : Str → List Str
  | [] => [[]]
  | c :: cs =>
    match splitOnNl cs with
    | [] => [[]]
    | s :: rest => if c = nlChar then [] :: s :: rest else (c :: s) :: rest

/-- Remove one trailing carriage return, as `str::lines` does per line. -/
def stripTrailingCr (s : Str) : Str :=
  if s.getLast? = some crChar then s.dropLast else s

/-- Model of Rust `str::lines`: split on newline; every segment that was
terminated by a newline has one trailing carriage return removed; a final
empty segment (from a trailing newline, or an empty string) is dropped. -/
def rustLines (s : Str) : List Str :=
  let parts := splitOnNl s
  let front := parts.dropLast.map stripTrailingCr
  match parts.getLast? with
  | some [] => front
  | some l => front ++ [l]
  | none => front

/-- Model of Rust `str::trim` (ASCII whitespace). -/
def trim (s : Str) : Str :=
  ((s.dropWhile isWsp).reverse.dropWhile isWsp).reverse

/-- Whether `pat` is a prefix of `s` (Rust `str::starts_with` for string patterns). -/
def startsWithStr : Str → Str → Bool
  | _, [] => true
  | [], _ :: _ => false
  | c :: cs, p :: ps => c = p && startsWithStr cs ps

/-- Index of the first occurrence of `pat` in `s` (Rust `str::find`). -/
def findSub (pat : Str) : Str → Option Nat
  | [] => if startsWithStr [] pat then some 0 else none
  | c :: cs =>
    if startsWithStr (c :: cs) pat then some 0
    else (findSub pat cs).map (· + 1)

/-- Rust `str::contains` for string patterns. -/
def containsSub (s pat : Str) : Bool :=
  (findSub pat s).isSome

/-- Index of the first occurrence of the character `c` (Rust `str::find` with a char pattern). -/
def findCharIdx (c : Char) : Str → Option Nat
  | [] => none
  | d :: ds => if d = c then some 0 else (findCharIdx c ds).map (· + 1)

/-- Model of `Vec::join("\n")`. -/
def joinNL : List Str → Str
  | [] => []
  | [l] => l
  | l :: ls => l ++ nlChar :: joinNL ls

/-- The `u32` modulus. -/
def U32 : Nat := 2 ^ 32

/-- Compile error information, from `types.rs` (`CompileError`). -/
structure CompileError where
  message : Str
  line : Option Nat
  column : Option Nat
  file : Option Str
deriving Repr, DecidableEq

/-- Runtime error variants, from `types.rs` (`RuntimeError`). -/
inductive RuntimeError where
  | timeout
  | panic (message : Str)
  | outOfMemory
  | unknown (stderr : Str)
deriving Repr, DecidableEq

/-- Resource limits, from `types.rs` (`ResourceLimit`). -/
inductive ResourceLimit where
  | memory
  | cpu
  | diskSpace
  | processCount
deriving Repr, DecidableEq

/-- Outcome of one verification run, from `types.rs` (`VerificationResult`). -/
structure VerificationResult where
  success : Bool
  stdout : Str
  stderr : Str
  duration_ms : Nat
  tests_passed : Nat
  tests_failed : Nat
  tests_total : Nat
  compile_error : Option CompileError
  runtime_error : Option RuntimeError
  resource_limit_hit : Option ResourceLimit
deriving Repr, DecidableEq

/-- Constructor `VerificationResult::success` from `types.rs`. -/
def VerificationResult.mkSuccess (tests_passed tests_total duration_ms : Nat) :
    VerificationResult :=
  { success := true
    stdout := []
    stderr := []
    duration_ms := duration_ms
    tests_passed := tests_passed
    tests_failed := 0
    tests_total := tests_total
    compile_error := none
    runtime_error := none
    resource_limit_hit := none }

/-- Constructor `VerificationResult::failure` from `types.rs`. -/
def VerificationResult.mkFailure (tests_passed tests_failed tests_total duration_ms : Nat) :
    VerificationResult :=
  { success := false
    stdout := []
    stderr := []
    duration_ms := duration_ms
    tests_passed := tests_passed
    tests_failed := tests_failed
    tests_total := tests_total
    compile_error := none
    runtime_error := none
    resource_limit_hit := none }

/-- Constructor `VerificationResult::compile_error` from `types.rs`. -/
def VerificationResult.mkCompileError (error : CompileError) : VerificationResult :=
  { success := false
    stdout := []
    stderr := []
    duration_ms := 0
    tests_passed := 0
    tests_failed := 0
    tests_total := 0
    compile_error := some error
    runtime_error := none
    resource_limit_hit := none }

/-- Constructor `VerificationResult::runtime_error` from `types.rs`. -/
def VerificationResult.mkRuntimeError (error : RuntimeError) (duration_ms : Nat) :
    VerificationResult :=
  { success := false
    stdout := []
    stderr := []
    duration_ms := duration_ms
    tests_passed := 0
    tests_failed := 0
    tests_total := 0
    compile_error := none
    runtime_error := some error
    resource_limit_hit := none }

/-- Method `VerificationResult::with_output` from `types.rs`. -/
def VerificationResult.with_output (r : VerificationResult) (stdout stderr : Str) :
    VerificationResult :=
  { r with stdout := stdout, stderr := stderr }

/-- One element of the `spans` array of a compiler diagnostic, from `parser.rs`
(`DiagnosticSpan`). -/
structure DiagnosticSpan where
  file_name : Option Str
  line_start : Option Nat
  column_start : Option Nat
deriving Repr, DecidableEq

/-- A compiler diagnostic, from `parser.rs` (`CompilerDiagnostic`). -/
structure CompilerDiagnostic where
  message : Str
  level : Str
  spans : List DiagnosticSpan
deriving Repr, DecidableEq

/-- Cargo JSON message variants, from `parser.rs` (`CargoMessage`).  Any valid
JSON object whose `reason` tag matches none of the named variants decodes to
`unknown` via `#[serde(other)]`. -/
inductive CargoMessage where
  | compilerMessage (message : CompilerDiagnostic)
  | buildFinished (success : Bool)
  | test (name : Str) (event : Str)
  | suite (event : Str) (passed failed ignored : Option Nat)
  | unknown
deriving Repr, DecidableEq

/-- The mutable locals of the line loop of `parse_cargo_output` in `parser.rs`:
`tests_passed`, `tests_failed`, `compile_error`, `build_success`, `stdout_lines`. -/
structure ParseState where
  tests_passed : Nat
  tests_failed : Nat
  compile_error : Option CompileError
  build_success : Bool
  stdout_lines : List Str
deriving Repr, DecidableEq

/-- Initial values of the loop locals in `parse_cargo_output`. -/
def initState : ParseState :=
  { tests_passed := 0
    tests_failed := 0
    compile_error := none
    build_success := true
    stdout_lines := [] }

/-- The `CompileError` built from an error-level diagnostic in the
`CompilerMessage` arm of `parse_cargo_output` (fields taken from the first span). -/
def diagToCompileError (m : CompilerDiagnostic) : CompileError :=
  { message := m.message
    line := m.spans.head?.bind (fun s => s.line_start)
    column := m.spans.head?.bind (fun s => s.column_start)
    file := m.spans.head?.bind (fun s => s.file_name) }

/-- Effect of one decoded `CargoMessage` on the loop state: the `match msg`
arms of `parse_cargo_output`.  The `u32` counters wrap modulo `2 ^ 32`. -/
def applyMsg (st : ParseState) (msg : CargoMessage) : ParseState :=
  match msg with
  | .compilerMessage message =>
    if message.level = ("error").toList then
      { st with compile_error := some (diagToCompileError message) }
    else st
  | .buildFinished success => { st with build_success := success }
  | .test _name event =>
    if event = ("ok").toList then
      { st with tests_passed := (st.tests_passed + 1) % U32 }
    else if event = ("failed").toList then
      { st with tests_failed := (st.tests_failed + 1) % U32 }
    else st
  | .suite event passed failed _ignored =>
    if event = ("started").toList then st
    else if event = ("ok").toList || event = ("failed").toList then
      let st1 :=
        match passed with
        | some p => { st with tests_passed := p % U32 }
        | none => st
      match failed with
      | some f => { st1 with tests_failed := f % U32 }
      | none => st1
    else st
  | .unknown => st

/-- One iteration of the line loop of `parse_cargo_output`: trim; skip blank
lines; collect lines not starting with a brace into `stdout_lines`; otherwise
attempt to decode a `CargoMessage` (decode failures are silently skipped).
A nonempty line fails `starts_with('{')` exactly when its head is not a brace. -/
def processLine (decode : Str → Option CargoMessage) (st : ParseState) (rawLine : Str) :
    ParseState :=
  let line := trim rawLine
  if line.isEmpty then st
  else if line.head? = some obChar then
    match decode line with
    | some msg => applyMsg st msg
    | none => st
  else
    { st with stdout_lines := st.stdout_lines ++ [line] }

/-- The loop state after scanning all of stdout, as `parse_cargo_output` does. -/
def parseState (decode : Str → Option CargoMessage) (output : Str) : ParseState :=
  (rustLines output).foldl (processLine decode) initState

/-- Model of `detect_resource_limit` from `parser.rs`. -/
def detect_resource_limit (stderr : Str) : Option ResourceLimit :=
  if containsSub stderr ("OOMKilled").toList
      || containsSub stderr ("out of memory").toList
      || containsSub stderr ("Cannot allocate memory").toList then
    some ResourceLimit.memory
  else if containsSub stderr ("pids limit").toList
      || containsSub stderr ("fork: Resource temporarily unavailable").toList then
    some ResourceLimit.processCount
  else
    none

/-- Effect of one stderr line inside the loop of `extract_panic_message`:
`none` means the loop continues; `some (Except.error ())` models the Rust
byte-slice panic of `&line[start + 12..]` when `start + 12` exceeds the line
length; `some (Except.ok msg)` is a returned message. -/
def panicFromLine (line : Str) : Option (Except Unit Str) :=
  if containsSub line ("panicked at").toList then
    match findSub ("panicked at").toList line with
    | some start =>
      if start + 12 ≤ line.length then
        let after_panicked := line.drop (start + 12)
        match findCharIdx sqChar after_panicked with
        | some quote_start =>
          let rest := after_panicked.drop (quote_start + 1)
          match findCharIdx sqChar rest with
          | some quote_end => some (Except.ok (rest.take quote_end))
          | none => some (Except.ok (trim after_panicked))
        | none => some (Except.ok (trim after_panicked))
      else some (Except.error ())
    | none => none
  else none

/-- The line loop of `extract_panic_message`, over the remaining stderr lines. -/
def extractPanicLoop : List Str → Except Unit Str
  | [] => Except.ok ("Unknown panic").toList
  | l :: ls =>
    match panicFromLine l with
    | some r => r
    | none => extractPanicLoop ls

/-- Model of `extract_panic_message` from `parser.rs`.  `Except.error ()` is a
Rust panic (out-of-bounds byte slice). -/
def extract_panic_message (stderr : Str) : Except Unit Str :=
  extractPanicLoop (rustLines stderr)

/-- Model of `detect_runtime_error` from `parser.rs`. -/
def detect_runtime_error (stderr : Str) : Except Unit (Option RuntimeError) :=
  if containsSub stderr ("panicked at").toList then
    match extract_panic_message stderr with
    | Except.ok message => Except.ok (some (RuntimeError.panic message))
    | Except.error e => Except.error e
  else if containsSub stderr ("timeout").toList
      || containsSub stderr ("SIGKILL").toList then
    Except.ok (some RuntimeError.timeout)
  else if containsSub stderr ("out of memory").toList
      || containsSub stderr ("memory allocation").toList
      || containsSub stderr ("Cannot allocate memory").toList then
    Except.ok (some RuntimeError.outOfMemory)
  else
    Except.ok none

/-- The tail of `parse_cargo_output` after the line loop and the stderr scans:
computes `tests_total`, then returns via the compile-error branch, the
runtime-error branch, or the normal success/failure branch. -/
def finishParse (st : ParseState) (stderr : Str) (duration_ms : Nat)
    (runtime_error : Option RuntimeError) : VerificationResult :=
  let resource_limit := detect_resource_limit stderr
  let tests_total := (st.tests_passed + st.tests_failed) % U32
  match st.compile_error with
  | some error =>
    (VerificationResult.mkCompileError error).with_output (joinNL st.stdout_lines) stderr
  | none =>
    match runtime_error with
    | some error =>
      { (VerificationResult.mkRuntimeError error duration_ms).with_output
          (joinNL st.stdout_lines) stderr with
        resource_limit_hit := resource_limit }
    | none =>
      let success :=
        st.build_success && (st.tests_failed == 0) && decide (st.tests_passed > 0)
      let base :=
        if success then
          VerificationResult.mkSuccess st.tests_passed tests_total duration_ms
        else
          VerificationResult.mkFailure st.tests_passed st.tests_failed tests_total duration_ms
      { base with
        stdout := joinNL st.stdout_lines
        stderr := stderr
        resource_limit_hit := resource_limit }

/-- Model of `parse_cargo_output` from `parser.rs`.  `Except.error ()` models a
Rust panic raised while parsing (possible only inside `extract_panic_message`). -/
def parse_cargo_output (decode : Str → Option CargoMessage) (output stderr : Str)
    (duration_ms : Nat) : Except Unit VerificationResult :=
  match detect_runtime_error stderr with
  | Except.error e => Except.error e
  | Except.ok runtime_error =>
    Except.ok (finishParse (parseState decode output) stderr duration_ms runtime_error)

/-- The exit-code post-processing of `DockerRunner::run_container` in
`docker.rs`: after parsing, exit code 137 forces an out-of-memory runtime
error and failure. -/
def run_container_post (result : VerificationResult) (exit_code : Int) :
    VerificationResult :=
  if exit_code = 137 then
    { result with runtime_error := some RuntimeError.outOfMemory, success := false }
  else result

/-- The container pool of `pool.rs`: a FIFO queue of idle handles bounded by
`max_size` (`config.pre_warm_pool_size`). -/
structure ContainerPool where
  idle : List Str
  max_size : Nat
deriving Repr, DecidableEq

/-- `ContainerPool::new`, retaining only the data the operations touch. -/
def ContainerPool.mkNew (pre_warm_pool_size : Nat) : ContainerPool :=
  { idle := [], max_size := pre_warm_pool_size }

/-- `ContainerPool::get`: pop the front of the idle queue. -/
def ContainerPool.get (p : ContainerPool) : Option Str × ContainerPool :=
  match p.idle with
  | [] => (none, p)
  | c :: rest => (some c, { p with idle := rest })

/-- `ContainerPool::return_container`: push at the back only when the pool is
not full; otherwise the pool is unchanged. -/
def ContainerPool.return_container (p : ContainerPool) (container_id : Str) :
    ContainerPool :=
  if p.idle.length < p.max_size then { p with idle := p.idle ++ [container_id] }
  else p

/-- `ContainerPool::available`: number of idle handles. -/
def ContainerPool.available (p : ContainerPool) : Nat :=
  p.idle.length

/-- A cargo JSON line: an error-level compiler diagnostic (mismatched types). -/
def jErr1 : Str :=
  ("\x7b\"reason\":\"compiler-message\",\"message\":\x7b\"message\":\"mismatched types\",\"level\":\"error\",\"spans\":[\x7b\"file_name\":\"src/lib.rs\",\"line_start\":10,\"column_start\":5\x7d]\x7d\x7d").toList

/-- The `CargoMessage` that `serde_json` decodes from `jErr1`. -/
def msgErr1 : CargoMessage :=
  CargoMessage.compilerMessage
    { message := ("mismatched types").toList
      level := ("error").toList
      spans := [{ file_name := some ("src/lib.rs").toList
                  line_start := some 10
                  column_start := some 5 }] }

/-- A cargo JSON line: a second error-level compiler diagnostic (unresolved name). -/
def jErr2 : Str :=
  ("\x7b\"reason\":\"compiler-message\",\"message\":\x7b\"message\":\"cannot find value x\",\"level\":\"error\",\"spans\":[\x7b\"file_name\":\"src/lib.rs\",\"line_start\":20,\"column_start\":7\x7d]\x7d\x7d").toList

/-- The `CargoMessage` that `serde_json` decodes from `jErr2`. -/
def msgErr2 : CargoMessage :=
  CargoMessage.compilerMessage
    { message := ("cannot find value x").toList
      level := ("error").toList
      spans := [{ file_name := some ("src/lib.rs").toList
                  line_start := some 20
                  column_start := some 7 }] }

/-- A cargo JSON line: successful build-finished message. -/
def jBuildOk : Str :=
  ("\x7b\"reason\":\"build-finished\",\"success\":true\x7d").toList

/-- A cargo JSON line: suite summary reporting 2 passed, 0 failed. -/
def jSuiteOk : Str :=
  ("\x7b\"reason\":\"suite\",\"event\":\"ok\",\"passed\":2,\"failed\":0,\"ignored\":0\x7d").toList

/-- The `CargoMessage` that `serde_json` decodes from `jSuiteOk`. -/
def msgSuiteOk : CargoMessage :=
  CargoMessage.suite ("ok").toList (some 2) (some 0) (some 0)

/-- A cargo JSON line: a single passing test event. -/
def jTestOk : Str :=
  ("\x7b\"reason\":\"test\",\"name\":\"t1\",\"event\":\"ok\"\x7d").toList

/-- A cargo JSON line: suite summary whose `u32` counts sum past `2 ^ 32`. -/
def jSuiteBig : Str :=
  ("\x7b\"reason\":\"suite\",\"event\":\"failed\",\"passed\":4294967295,\"failed\":1,\"ignored\":0\x7d").toList

/-- The `CargoMessage` that `serde_json` decodes from `jSuiteBig`. -/
def msgSuiteBig : CargoMessage :=
  CargoMessage.suite ("failed").toList (some 4294967295) (some 1) (some 0)

/-- A concrete decoder agreeing with `serde_json`'s `CargoMessage` decoding on
the literal JSON lines used in the concrete evaluations below. -/
def demoDecode (s : Str) : Option CargoMessage :=
  if s = jErr1 then some msgErr1
  else if s = jErr2 then some msgErr2
  else if s = jBuildOk then some (CargoMessage.buildFinished true)
  else if s = jSuiteOk then some msgSuiteOk
  else if s = jTestOk then some (CargoMessage.test ("t1").toList ("ok").toList)
  else if s = jSuiteBig then some msgSuiteBig
  else none

/-- The trimmed text a raw stdout line contributes to the result's `stdout`
field: the trimmed line when it is nonempty and does not start with a brace,
nothing otherwise. -/
def textOf (rawLine : Str) : Option Str :=
  let line := trim rawLine
  if line.isEmpty then none
  else if line.head? = some obChar then none
  else some line

/-- All trimmed non-JSON lines of a raw stdout stream, in order. -/
def textLines (output : Str) : List Str :=
  (rustLines output).filterMap textOf

/-- The compile error an individual decoded message contributes, if any. -/
def msgError : CargoMessage → Option CompileError
  | CargoMessage.compilerMessage m =>
    if m.level = ("error").toList then some (diagToCompileError m) else none
  | _ => none

/-- The compile error a raw stdout line contributes, if any. -/
def lineErrorDiag (decode : Str → Option CargoMessage) (rawLine : Str) :
    Option CompileError :=
  let line := trim rawLine
  if line.isEmpty then none
  else if line.head? = some obChar then
    match decode line with
    | some m => msgError m
    | none => none
  else none

/-- All compile errors contributed by a raw stdout stream, in order. -/
def errorsOf (decode : Str → Option CargoMessage) (output : Str) : List CompileError :=
  (rustLines output).filterMap (lineErrorDiag decode)

/-- A raw line is count-neutral when processing it never changes the running
test counters, whatever their current values. -/
def countNeutral (decode : Str → Option CargoMessage) (l : Str) : Prop :=
  ∀ st : ParseState,
    (processLine decode st l).tests_passed = st.tests_passed ∧
    (processLine decode st l).tests_failed = st.tests_failed

theorem applyMsg_stdout_lines (st : ParseState) (m : CargoMessage) :
    (applyMsg st m).stdout_lines = st.stdout_lines := by
  cases m <;> simp only [applyMsg] <;> (repeat' split) <;> rfl

theorem processLine_stdout_lines (d : Str → Option CargoMessage) (st : ParseState)
    (l : Str) :
    (processLine d st l).stdout_lines = st.stdout_lines ++ (textOf l).toList := by
  simp only [processLine, textOf]
  split
  · simp
  · split
    · cases h : d (trim l) <;> simp [h, applyMsg_stdout_lines]
    · simp

theorem foldl_stdout_lines (d : Str → Option CargoMessage) :
    ∀ (ls : List Str) (st : ParseState),
      (ls.foldl (processLine d) st).stdout_lines =
        st.stdout_lines ++ ls.filterMap textOf := by
  intro ls
  induction ls with
  | nil => intro st; simp
  | cons l ls ih =>
    intro st
    rw [List.foldl_cons, ih, processLine_stdout_lines, List.filterMap_cons]
    cases h : textOf l <;> simp [h]

theorem applyMsg_compile_error (st : ParseState) (m : CargoMessage) :
    (applyMsg st m).compile_error = (msgError m).or st.compile_error := by
  cases m <;> simp only [applyMsg, msgError] <;> (repeat' split) <;>
    simp_all [Option.or]

theorem processLine_compile_error (d : Str → Option CargoMessage) (st : ParseState)
    (l : Str) :
    (processLine d st l).compile_error = (lineErrorDiag d l).or st.compile_error := by
  simp only [processLine, lineErrorDiag]
  split
  · simp [Option.or]
  · split
    · cases h : d (trim l) <;> simp [h, applyMsg_compile_error, Option.or]
    · simp [Option.or]

theorem foldl_compile_error (d : Str → Option CargoMessage) :
    ∀ (ls : List Str) (st : ParseState),
      (ls.foldl (processLine d) st).compile_error =
        ((ls.filterMap (lineErrorDiag d)).getLast?).or st.compile_error := by
  intro ls
  induction ls with
  | nil => intro st; simp [Option.or]
  | cons l ls ih =>
    intro st
    rw [List.foldl_cons, ih, processLine_compile_error, List.filterMap_cons]
    cases h : lineErrorDiag d l
    · simp
    · cases hX : (ls.filterMap (lineErrorDiag d)).getLast? <;>
        simp [List.getLast?_cons, hX, Option.or]

theorem foldl_counts_neutral (d : Str → Option CargoMessage) :
    ∀ (ls : List Str) (st : ParseState), (∀ l ∈ ls, countNeutral d l) →
      (ls.foldl (processLine d) st).tests_passed = st.tests_passed ∧
      (ls.foldl (processLine d) st).tests_failed = st.tests_failed := by
  intro ls
  induction ls with
  | nil => intro st _; exact ⟨rfl, rfl⟩
  | cons l ls ih =>
    intro st h
    have hl := h l (by simp)
    have hrest := ih (processLine d st l) (fun x hx => h x (by simp [hx]))
    rw [List.foldl_cons]
    exact ⟨hrest.1.trans (hl st).1, hrest.2.trans (hl st).2⟩

theorem parse_eq_ok (d : Str → Option CargoMessage) (out err : Str) (dur : Nat)
    (r : VerificationResult) :
    parse_cargo_output d out err dur = Except.ok r ↔
      ∃ rt, detect_runtime_error err = Except.ok rt ∧
        r = finishParse (parseState d out) err dur rt := by
  unfold parse_cargo_output
  cases h : detect_runtime_error err <;> simp [h, eq_comm]

theorem finishParse_stdout (st : ParseState) (err : Str) (dur : Nat)
    (rt : Option RuntimeError) :
    (finishParse st err dur rt).stdout = joinNL st.stdout_lines := by
  unfold finishParse
  cases st.compile_error <;> cases rt <;>
    simp [VerificationResult.with_output, VerificationResult.mkCompileError,
      VerificationResult.mkRuntimeError, VerificationResult.mkSuccess,
      VerificationResult.mkFailure]

theorem finishParse_exclusive (st : ParseState) (err : Str) (dur : Nat)
    (rt : Option RuntimeError) :
    (finishParse st err dur rt).compile_error = none ∨
      (finishParse st err dur rt).runtime_error = none := by
  unfold finishParse
  cases st.compile_error <;> cases rt <;>
    simp [VerificationResult.with_output, VerificationResult.mkCompileError,
      VerificationResult.mkRuntimeError, VerificationResult.mkSuccess,
      VerificationResult.mkFailure] <;> split <;> simp

theorem processLine_suite (d : Str → Option CargoMessage) (st : ParseState)
    (l ev : Str) (p f : Nat) (ig : Option Nat)
    (ht : trim l = l) (hb : l.head? = some obChar)
    (hd : d l = some (CargoMessage.suite ev (some p) (some f) ig))
    (hev : ev = ("ok").toList ∨ ev = ("failed").toList) :
    (processLine d st l).tests_passed = p % U32 ∧
      (processLine d st l).tests_failed = f % U32 := by
  have hne : l.isEmpty = false := by
    cases l with
    | nil => simp at hb
    | cons c cs => rfl
  have hstart : ¬ ev = ("started").toList := by
    rcases hev with rfl | rfl <;> decide
  have hok : (ev = ("ok").toList || ev = ("failed").toList) = true := by
    rcases hev with rfl | rfl <;> decide
  simp only [processLine, ht, hne, hb, hd, applyMsg, Bool.false_eq_true,
    if_false, if_true, hstart, hok]
  simp

/-- Decidable equality for `Except`, used to evaluate concrete parser runs. -/
instance instDecEqExcept {ε α : Type} [DecidableEq ε] [DecidableEq α] :
    DecidableEq (Except ε α)
  | Except.error e, Except.error f => decidable_of_iff (e = f) (by simp)
  | Except.error _, Except.ok _ => isFalse (by simp)
  | Except.ok _, Except.error _ => isFalse (by simp)
  | Except.ok a, Except.ok b => decidable_of_iff (a = b) (by simp)

/-- The result of parsing empty stdout and empty stderr. -/
def emptyRes : VerificationResult :=
  { success := false
    stdout := []
    stderr := []
    duration_ms := 0
    tests_passed := 0
    tests_failed := 0
    tests_total := 0
    compile_error := none
    runtime_error := none
    resource_limit_hit := none }

/-- C1 (amended): in every `VerificationResult` produced by
`parse_cargo_output` itself, `compile_error` and `runtime_error` are never both
`Some`; exactly one of the three outcome classes is populated.  (The amendment
removes the run_container post-processing from the scope of the claim: the
exit-code-137 override sets `runtime_error` without clearing `compile_error`,
so after that post-processing both can be `Some`; see the counterexample.) -/
theorem parse_outcome_classes_exclusive
    (d : Str → Option CargoMessage) (out err : Str) (dur : Nat)
    (r : VerificationResult) (h : parse_cargo_output d out err dur = Except.ok r) :
    r.compile_error = none ∨ r.runtime_error = none := by
  rcases (parse_eq_ok d out err dur r).1 h with ⟨rt, hrt, rfl⟩
  exact finishParse_exclusive (parseState d out) err dur rt

/-- Witness for C1: the exclusivity theorem applied to the concrete empty run. -/
theorem parse_outcome_classes_exclusive_witness :
    parse_cargo_output demoDecode [] [] 0 = Except.ok emptyRes ∧
      (emptyRes.compile_error = none ∨ emptyRes.runtime_error = none) :=
  ⟨by decide, parse_outcome_classes_exclusive demoDecode [] [] 0 emptyRes (by decide)⟩

/-- Counterexample for C1 as frozen: parsing a compile-error stdout and then
applying `run_container`'s exit-code-137 post-processing yields a result in
which `compile_error` and `runtime_error` are both `Some`. -/
theorem parse_outcome_classes_exclusive_cex :
    ((parse_cargo_output demoDecode jErr1 [] 7).toOption.map
        (fun r => ((run_container_post r 137).compile_error.isSome,
                   (run_container_post r 137).runtime_error.isSome))) =
      some (true, true) := by decide

/-- C4 (confirmed): whatever verdict `parse_cargo_output` reached, the
exit-code-137 post-processing of `run_container` reports
`RuntimeError::OutOfMemory` and failure. -/
theorem exit_code_137_forces_oom
    (d : Str → Option CargoMessage) (out err : Str) (dur : Nat)
    (r : VerificationResult) (h : parse_cargo_output d out err dur = Except.ok r) :
    (run_container_post r 137).runtime_error = some RuntimeError.outOfMemory ∧
      (run_container_post r 137).success = false := by
  unfold run_container_post
  simp

/-- Witness for C4: the OOM override on the concrete empty run, whose stderr
contains no OOM signature at all. -/
theorem exit_code_137_forces_oom_witness :
    parse_cargo_output demoDecode [] [] 0 = Except.ok emptyRes ∧
      (run_container_post emptyRes 137).runtime_error = some RuntimeError.outOfMemory ∧
      (run_container_post emptyRes 137).success = false :=
  ⟨by decide, exit_code_137_forces_oom demoDecode [] [] 0 emptyRes (by decide)⟩

/-- C5 (code bug): on a stderr whose line ends immediately after the text
`panicked at`, `extract_panic_message` slices `&line[start + 12..]` past the
end of the line, so `parse_cargo_output` panics (modelled as `Except.error`)
instead of returning a `VerificationResult`. -/
theorem parse_panics_on_truncated_panic_line :
    parse_cargo_output demoDecode [] (("panicked at").toList) 0 =
      Except.error () := by decide

/-- C6 (amended): the result's `stdout` field is the newline-join of the
trimmed non-JSON lines of stdout, in original order.  (The amendment replaces
verbatim preservation: each kept line is trimmed of leading and trailing
whitespace, blank and whitespace-only lines are dropped, and lines starting
with a brace are never kept even if they fail to decode; see the
counterexample for the loss of surrounding whitespace.) -/
theorem stdout_keeps_trimmed_text_lines
    (d : Str → Option CargoMessage) (out err : Str) (dur : Nat)
    (r : VerificationResult) (h : parse_cargo_output d out err dur = Except.ok r) :
    r.stdout = joinNL (textLines out) := by
  rcases (parse_eq_ok d out err dur r).1 h with ⟨rt, hrt, rfl⟩
  rw [finishParse_stdout]
  unfold parseState textLines
  rw [foldl_stdout_lines]
  rfl

/-- The result of parsing a stream that interleaves two plain-text lines with
a build-finished JSON line. -/
def mixedRes : VerificationResult :=
  { success := false
    stdout := ("Compiling foo v0.1.0\nRunning unittests").toList
    stderr := []
    duration_ms := 3
    tests_passed := 0
    tests_failed := 0
    tests_total := 0
    compile_error := none
    runtime_error := none
    resource_limit_hit := none }

/-- Witness for C6: interleaved text and JSON lines keep exactly the text
lines, in order. -/
theorem stdout_keeps_trimmed_text_lines_witness :
    parse_cargo_output demoDecode
        (joinNL [("Compiling foo v0.1.0").toList, jBuildOk, ("Running unittests").toList])
        [] 3 =
      Except.ok mixedRes ∧
      mixedRes.stdout =
        joinNL (textLines (joinNL [("Compiling foo v0.1.0").toList, jBuildOk,
          ("Running unittests").toList])) :=
  ⟨by decide,
   stdout_keeps_trimmed_text_lines demoDecode
     (joinNL [("Compiling foo v0.1.0").toList, jBuildOk, ("Running unittests").toList])
     [] 3 mixedRes (by decide)⟩

/-- Counterexample for C6 as frozen: a plain-text line with surrounding
whitespace is not preserved character for character; it is trimmed. -/
theorem stdout_keeps_trimmed_text_lines_cex :
    ((parse_cargo_output demoDecode (("  hello  ").toList) [] 0).toOption.map
        (fun r => r.stdout)) = some (("hello").toList) ∧
      ("hello").toList ≠ ("  hello  ").toList := by decide

/-- The compile error that `parse_cargo_output` extracts from `jErr1`. -/
def ce1 : CompileError :=
  { message := ("mismatched types").toList
    line := some 10
    column := some 5
    file := some ("src/lib.rs").toList }

/-- The result of parsing a stdout consisting of the single line `jErr1`. -/
def jErr1Res : VerificationResult :=
  { success := false
    stdout := []
    stderr := []
    duration_ms := 0
    tests_passed := 0
    tests_failed := 0
    tests_total := 0
    compile_error := some ce1
    runtime_error := none
    resource_limit_hit := none }

/-- A stdout stream carrying two error-level compiler diagnostics. -/
def twoErrInput : Str := jErr1 ++ nlChar :: jErr2

/-- C2 (amended): whenever stdout contains at least one error-level compiler
diagnostic, the result is a compile-error outcome (`success = false`,
zero test counts) carrying the message and first-span location of the LAST
such diagnostic in the stream.  (The amendment replaces "first" by "last":
the loop overwrites `compile_error` on every error-level diagnostic, so the
last one wins; see the counterexample.) -/
theorem compile_error_last_error_wins
    (d : Str → Option CargoMessage) (out err : Str) (dur : Nat)
    (r : VerificationResult) (e : CompileError)
    (h : parse_cargo_output d out err dur = Except.ok r)
    (hl : (errorsOf d out).getLast? = some e) :
    r.compile_error = some e ∧ r.success = false ∧
      r.tests_passed = 0 ∧ r.tests_failed = 0 ∧ r.tests_total = 0 := by
  rcases (parse_eq_ok d out err dur r).1 h with ⟨rt, hrt, rfl⟩
  have hce : (parseState d out).compile_error = some e := by
    unfold parseState
    rw [foldl_compile_error]
    unfold errorsOf at hl
    rw [hl]
    rfl
  unfold finishParse
  rw [hce]
  simp [VerificationResult.with_output, VerificationResult.mkCompileError]

/-- Witness for C2: a single error diagnostic yields its compile error. -/
theorem compile_error_last_error_wins_witness :
    parse_cargo_output demoDecode jErr1 [] 0 = Except.ok jErr1Res ∧
      (errorsOf demoDecode jErr1).getLast? = some ce1 ∧
      (jErr1Res.compile_error = some ce1 ∧ jErr1Res.success = false ∧
        jErr1Res.tests_passed = 0 ∧ jErr1Res.tests_failed = 0 ∧
        jErr1Res.tests_total = 0) :=
  ⟨by decide, by decide,
   compile_error_last_error_wins demoDecode jErr1 [] 0 jErr1Res ce1
     (by decide) (by decide)⟩

/-- Counterexample for C2 as frozen: with two error diagnostics in the stream,
the result carries the message of the second one, not of the first. -/
theorem compile_error_last_error_wins_cex :
    (errorsOf demoDecode twoErrInput).head?.map (fun e => e.message) =
        some (("mismatched types").toList) ∧
      ((parse_cargo_output demoDecode twoErrInput [] 0).toOption.map
          (fun r => r.compile_error.map (fun e => e.message))) =
        some (some (("cannot find value x").toList)) ∧
      ("mismatched types").toList ≠ ("cannot find value x").toList := by decide

/-- C3 (confirmed): when no compile error was found in stdout and no runtime
error was detected in stderr, the verdict is success exactly when the
build-finished flag is set (it defaults to true), no test failed, and at
least one test passed; moreover empty stdout and stderr parse to a
non-success result with zero passed and zero failed tests. -/
theorem success_iff_build_and_tests :
    (∀ (d : Str → Option CargoMessage) (out err : Str) (dur : Nat)
        (r : VerificationResult),
      parse_cargo_output d out err dur = Except.ok r →
      (parseState d out).compile_error = none →
      detect_runtime_error err = Except.ok none →
      (r.success = true ↔
        ((parseState d out).build_success = true ∧
          (parseState d out).tests_failed = 0 ∧
          0 < (parseState d out).tests_passed))) ∧
    ((parse_cargo_output demoDecode [] [] 0).toOption.map
        (fun r => (r.success, r.tests_passed, r.tests_failed)) =
      some (false, 0, 0)) := by
  constructor
  · intro d out err dur r h hce hdet
    rcases (parse_eq_ok d out err dur r).1 h with ⟨rt, hrt, rfl⟩
    obtain rfl : rt = none := by
      have := hdet.symm.trans hrt
      simpa [eq_comm] using this
    unfold finishParse
    rw [hce]
    cases hb : ((parseState d out).build_success &&
        ((parseState d out).tests_failed == 0) &&
        decide ((parseState d out).tests_passed > 0)) <;>
      simp only [hb, if_true, if_false, Bool.false_eq_true] <;>
      simp_all [VerificationResult.mkSuccess, VerificationResult.mkFailure,
        Bool.and_eq_true, beq_iff_eq, decide_eq_true_eq, Nat.pos_iff_ne_zero]
  · decide

/-- The result of parsing a successful build-finished line followed by a
passing suite summary. -/
def passRes : VerificationResult :=
  { success := true
    stdout := []
    stderr := []
    duration_ms := 5
    tests_passed := 2
    tests_failed := 0
    tests_total := 2
    compile_error := none
    runtime_error := none
    resource_limit_hit := none }

/-- The result of parsing an empty stdout against an OOM stderr signature. -/
def oomRes : VerificationResult :=
  { success := false
    stdout := []
    stderr := ("Cannot allocate memory").toList
    duration_ms := 1000
    tests_passed := 0
    tests_failed := 0
    tests_total := 0
    compile_error := none
    runtime_error := some RuntimeError.outOfMemory
    resource_limit_hit := some ResourceLimit.memory }

/-- Witness for C3: a run with a successful build and a passing suite summary
satisfies the success criterion. -/
theorem success_iff_build_and_tests_witness :
    parse_cargo_output demoDecode (joinNL [jBuildOk, jSuiteOk]) [] 5 =
        Except.ok passRes ∧
      (parseState demoDecode (joinNL [jBuildOk, jSuiteOk])).compile_error = none ∧
      detect_runtime_error [] = Except.ok none ∧
      (passRes.success = true ↔
        ((parseState demoDecode (joinNL [jBuildOk, jSuiteOk])).build_success = true ∧
          (parseState demoDecode (joinNL [jBuildOk, jSuiteOk])).tests_failed = 0 ∧
          0 < (parseState demoDecode (joinNL [jBuildOk, jSuiteOk])).tests_passed)) :=
  ⟨by decide, by decide, by decide,
   success_iff_build_and_tests.1 demoDecode (joinNL [jBuildOk, jSuiteOk]) [] 5 passRes
     (by decide) (by decide) (by decide)⟩

/-- C7 (amended): the resource-limit tag computed from stderr is attached to
the result on the runtime-error branch and on the normal pass/fail branch, but
a compile-error result carries no resource-limit tag (the compile-error branch
returns early without attaching it; see the counterexample). -/
theorem resource_limit_tag_attachment
    (d : Str → Option CargoMessage) (out err : Str) (dur : Nat)
    (r : VerificationResult) (h : parse_cargo_output d out err dur = Except.ok r) :
    (r.compile_error = none → r.resource_limit_hit = detect_resource_limit err) ∧
      (r.compile_error ≠ none → r.resource_limit_hit = none) := by
  rcases (parse_eq_ok d out err dur r).1 h with ⟨rt, hrt, rfl⟩
  unfold finishParse
  cases hce : (parseState d out).compile_error <;> cases rt <;>
    simp [VerificationResult.with_output, VerificationResult.mkCompileError,
      VerificationResult.mkRuntimeError, VerificationResult.mkSuccess,
      VerificationResult.mkFailure] <;> split <;> simp

/-- Witness for C7: an out-of-memory stderr signature attaches the memory tag
on the runtime-error branch. -/
theorem resource_limit_tag_attachment_witness :
    parse_cargo_output demoDecode [] (("Cannot allocate memory").toList) 1000 =
        Except.ok oomRes ∧
      ((oomRes.compile_error = none →
          oomRes.resource_limit_hit =
            detect_resource_limit (("Cannot allocate memory").toList)) ∧
        (oomRes.compile_error ≠ none → oomRes.resource_limit_hit = none)) :=
  ⟨by decide,
   resource_limit_tag_attachment demoDecode [] (("Cannot allocate memory").toList)
     1000 oomRes (by decide)⟩

/-- Counterexample for C7 as frozen: an OOM-kill stderr signature together
with a compile error yields a result whose resource-limit tag is dropped,
although the signature scan reports the memory limit. -/
theorem resource_limit_tag_attachment_cex :
    detect_resource_limit (("OOMKilled").toList) = some ResourceLimit.memory ∧
      ((parse_cargo_output demoDecode jErr1 (("OOMKilled").toList) 0).toOption.map
          (fun r => (r.compile_error.isSome, r.resource_limit_hit))) =
        some (true, none) := by decide

theorem finishParse_compile_error_field (st : ParseState) (err : Str) (dur : Nat)
    (rt : Option RuntimeError) :
    (finishParse st err dur rt).compile_error = st.compile_error := by
  unfold finishParse
  cases st.compile_error <;> cases rt <;>
    simp [VerificationResult.with_output, VerificationResult.mkCompileError,
      VerificationResult.mkRuntimeError, VerificationResult.mkSuccess,
      VerificationResult.mkFailure] <;> split <;> simp

theorem finishParse_runtime_error_field (st : ParseState) (err : Str) (dur : Nat)
    (rt : Option RuntimeError) (hce : st.compile_error = none) :
    (finishParse st err dur rt).runtime_error = rt := by
  unfold finishParse
  rw [hce]
  cases rt <;>
    simp [VerificationResult.with_output,
      VerificationResult.mkRuntimeError, VerificationResult.mkSuccess,
      VerificationResult.mkFailure] <;> split <;> simp

theorem finishParse_counts (st : ParseState) (err : Str) (dur : Nat)
    (hce : st.compile_error = none) :
    (finishParse st err dur none).tests_passed = st.tests_passed ∧
      (finishParse st err dur none).tests_failed = st.tests_failed := by
  unfold finishParse
  rw [hce]
  cases hb : (st.build_success && (st.tests_failed == 0) &&
      decide (st.tests_passed > 0)) <;>
    simp only [hb, if_true, if_false, Bool.false_eq_true] <;>
    simp [VerificationResult.mkSuccess, VerificationResult.mkFailure]
  have : (st.tests_failed == 0) = true := by
    rcases Bool.and_eq_true_iff.1 hb with ⟨h1, _⟩
    exact (Bool.and_eq_true_iff.1 h1).2
  exact (beq_iff_eq.1 this).symm

/-- C8 (amended): when the stdout stream contains a suite summary carrying
both counts, and every line after that summary is count-neutral (in
particular, no per-test event line follows it), the result's test counts on
the normal branch equal exactly the summary's counts; test events before the
summary are overwritten by it.  (The amendment adds the "no count-affecting
line after the summary" proviso: a per-test event after the summary would
increment on top of the summary's counts; see the counterexample.) -/
theorem suite_summary_counts_authoritative
    (d : Str → Option CargoMessage) (out err : Str) (dur : Nat)
    (r : VerificationResult) (pre : List Str) (sline : Str) (post : List Str)
    (ev : Str) (p f : Nat) (ig : Option Nat)
    (hsplit : rustLines out = pre ++ sline :: post)
    (ht : trim sline = sline) (hb : sline.head? = some obChar)
    (hd : d sline = some (CargoMessage.suite ev (some p) (some f) ig))
    (hev : ev = ("ok").toList ∨ ev = ("failed").toList)
    (hpost : ∀ l ∈ post, countNeutral d l)
    (h : parse_cargo_output d out err dur = Except.ok r)
    (hce : r.compile_error = none) (hre : r.runtime_error = none) :
    r.tests_passed = p % U32 ∧ r.tests_failed = f % U32 := by
  rcases (parse_eq_ok d out err dur r).1 h with ⟨rt, hrt, rfl⟩
  have hst : parseState d out =
      post.foldl (processLine d)
        (processLine d (pre.foldl (processLine d) initState) sline) := by
    unfold parseState
    rw [hsplit, List.foldl_append, List.foldl_cons]
  have hmid := processLine_suite d (pre.foldl (processLine d) initState) sline ev p f ig
    ht hb hd hev
  have hkeep := foldl_counts_neutral d post
    (processLine d (pre.foldl (processLine d) initState) sline) hpost
  have hp : (parseState d out).tests_passed = p % U32 := by
    rw [hst]; exact hkeep.1.trans hmid.1
  have hf : (parseState d out).tests_failed = f % U32 := by
    rw [hst]; exact hkeep.2.trans hmid.2
  have hce0 : (parseState d out).compile_error = none := by
    rw [finishParse_compile_error_field] at hce; exact hce
  have hrt0 : rt = none := by
    rw [finishParse_runtime_error_field _ _ _ _ hce0] at hre; exact hre
  subst hrt0
  have hcounts := finishParse_counts (parseState d out) err dur hce0
  exact ⟨hcounts.1.trans hp, hcounts.2.trans hf⟩

/-- The result of parsing a stdout consisting of the single suite-summary
line `jSuiteOk`. -/
def suiteRes : VerificationResult :=
  { success := true
    stdout := []
    stderr := []
    duration_ms := 9
    tests_passed := 2
    tests_failed := 0
    tests_total := 2
    compile_error := none
    runtime_error := none
    resource_limit_hit := none }

/-- Witness for C8: the suite-summary theorem applied to a concrete run whose
only line is the summary. -/
theorem suite_summary_counts_authoritative_witness :
    rustLines jSuiteOk = [] ++ jSuiteOk :: [] ∧
      trim jSuiteOk = jSuiteOk ∧
      demoDecode jSuiteOk =
        some (CargoMessage.suite (("ok").toList) (some 2) (some 0) (some 0)) ∧
      parse_cargo_output demoDecode jSuiteOk [] 9 = Except.ok suiteRes ∧
      (suiteRes.tests_passed = 2 % U32 ∧ suiteRes.tests_failed = 0 % U32) :=
  ⟨by decide, by decide, by decide, by decide,
   suite_summary_counts_authoritative demoDecode jSuiteOk [] 9 suiteRes
     [] jSuiteOk [] (("ok").toList) 2 0 (some 0)
     (by decide) (by decide) (by decide) (by decide) (Or.inl rfl)
     (by intro l hl; simp at hl) (by decide) (by decide) (by decide)⟩

/-- Counterexample for C8 as frozen: a per-test event appearing after the
suite summary increments the counts past the summary's values. -/
theorem suite_summary_counts_authoritative_cex :
    demoDecode jSuiteOk =
        some (CargoMessage.suite (("ok").toList) (some 2) (some 0) (some 0)) ∧
      ((parse_cargo_output demoDecode (joinNL [jSuiteOk, jTestOk]) [] 0).toOption.map
          (fun r => (r.tests_passed, r.tests_failed))) = some (3, 0) ∧
      (3, 0) ≠ (2, 0) := by decide

theorem pool_foldl_available (cs : List Str) :
    ∀ p : ContainerPool, p.available ≤ p.max_size →
      (cs.foldl ContainerPool.return_container p).available =
        min (p.available + cs.length) p.max_size := by
  induction cs with
  | nil =>
    intro p h
    simp only [List.foldl_nil, List.length_nil, Nat.add_zero]
    omega
  | cons c cs ih =>
    intro p h
    rw [List.foldl_cons]
    by_cases hlt : p.idle.length < p.max_size
    · have hav : (p.return_container c).available = p.available + 1 := by
        simp [ContainerPool.return_container, ContainerPool.available, hlt]
      have hmx : (p.return_container c).max_size = p.max_size := by
        simp [ContainerPool.return_container, hlt]
      rw [ih _ (by rw [hav, hmx]; unfold ContainerPool.available at *; omega)]
      rw [hav, hmx]
      simp only [List.length_cons]
      omega
    · have heq : p.return_container c = p := by
        simp [ContainerPool.return_container, hlt]
      rw [heq, ih p h]
      have hfull : p.available = p.max_size := by
        unfold ContainerPool.available at *
        omega
      simp only [List.length_cons]
      omega

/-- C9 (confirmed): the pool is a strictly FIFO queue bounded by `max_size`:
`get` pops the least-recently-returned idle handle (so after returning "a"
then "b" to an empty pool, two gets yield "a" then "b");
`return_container` appends only when strictly below capacity and otherwise
leaves the pool unchanged; `available` never exceeds `max_size` under the
operations; and returning at least `max_size` handles to a fresh pool leaves
`available` exactly `max_size`. -/
theorem pool_fifo_and_capacity :
    (((((ContainerPool.mkNew 2).return_container (("a").toList)).return_container
          (("b").toList)).get.1 = some (("a").toList)) ∧
      ((((ContainerPool.mkNew 2).return_container (("a").toList)).return_container
          (("b").toList)).get.2.get.1 = some (("b").toList))) ∧
    (∀ p : ContainerPool, p.get.1 = p.idle.head? ∧ p.get.2.idle = p.idle.tail) ∧
    (∀ (p : ContainerPool) (c : Str), p.idle.length < p.max_size →
      (p.return_container c).idle = p.idle ++ [c]) ∧
    (∀ (p : ContainerPool) (c : Str), ¬ p.idle.length < p.max_size →
      p.return_container c = p) ∧
    (∀ (p : ContainerPool) (c : Str), p.available ≤ p.max_size →
      (p.return_container c).available ≤ p.max_size) ∧
    (∀ p : ContainerPool, p.get.2.available ≤ p.available) ∧
    (∀ (n : Nat) (cs : List Str), n ≤ cs.length →
      (cs.foldl ContainerPool.return_container (ContainerPool.mkNew n)).available = n) := by
  refine ⟨by decide, ?_, ?_, ?_, ?_, ?_, ?_⟩
  · intro p
    cases h : p.idle <;> simp [ContainerPool.get, h]
  · intro p c h
    simp [ContainerPool.return_container, h]
  · intro p c h
    simp [ContainerPool.return_container, h]
  · intro p c h
    unfold ContainerPool.available at *
    by_cases hlt : p.idle.length < p.max_size <;>
      simp [ContainerPool.return_container, hlt] <;> omega
  · intro p
    cases h : p.idle <;> simp [ContainerPool.get, h, ContainerPool.available]
  · intro n cs h
    rw [pool_foldl_available cs (ContainerPool.mkNew n)
      (by simp [ContainerPool.available, ContainerPool.mkNew])]
    simp [ContainerPool.available, ContainerPool.mkNew]
    omega

/-- Witness for C9: the conditional parts of the pool theorem applied at
concrete pools. -/
theorem pool_fifo_and_capacity_witness :
    ((ContainerPool.mkNew 2).idle.length < (ContainerPool.mkNew 2).max_size ∧
      ((ContainerPool.mkNew 2).return_container (("a").toList)).idle =
        (ContainerPool.mkNew 2).idle ++ [("a").toList]) ∧
    (¬ (ContainerPool.mkNew 0).idle.length < (ContainerPool.mkNew 0).max_size ∧
      (ContainerPool.mkNew 0).return_container (("c").toList) =
        ContainerPool.mkNew 0) ∧
    (2 ≤ ([("a").toList, ("b").toList, ("c").toList] : List Str).length ∧
      (([("a").toList, ("b").toList, ("c").toList] : List Str).foldl
          ContainerPool.return_container (ContainerPool.mkNew 2)).available = 2) :=
  ⟨⟨by decide,
    pool_fifo_and_capacity.2.2.1 (ContainerPool.mkNew 2) (("a").toList) (by decide)⟩,
   ⟨by decide,
    pool_fifo_and_capacity.2.2.2.1 (ContainerPool.mkNew 0) (("c").toList) (by decide)⟩,
   ⟨by decide,
    pool_fifo_and_capacity.2.2.2.2.2.2 2
      [("a").toList, ("b").toList, ("c").toList] (by decide)⟩⟩

/-- C10 (amended): every result of `parse_cargo_output` satisfies
`tests_total = (tests_passed + tests_failed) % 2 ^ 32` — the sum is a `u32`
sum, so it equals the plain sum exactly when that sum is below `2 ^ 32`
(see the counterexample for the wrapping case) — and on the compile-error and
runtime-error paths all three counts are zero. -/
theorem tests_total_is_u32_sum
    (d : Str → Option CargoMessage) (out err : Str) (dur : Nat)
    (r : VerificationResult) (h : parse_cargo_output d out err dur = Except.ok r) :
    r.tests_total = (r.tests_passed + r.tests_failed) % U32 ∧
      (r.tests_passed + r.tests_failed < U32 →
        r.tests_total = r.tests_passed + r.tests_failed) ∧
      ((r.compile_error ≠ none ∨ r.runtime_error ≠ none) →
        r.tests_passed = 0 ∧ r.tests_failed = 0 ∧ r.tests_total = 0) := by
  rcases (parse_eq_ok d out err dur r).1 h with ⟨rt, hrt, rfl⟩
  have hmain : (finishParse (parseState d out) err dur rt).tests_total =
      ((finishParse (parseState d out) err dur rt).tests_passed +
        (finishParse (parseState d out) err dur rt).tests_failed) % U32 ∧
      ((finishParse (parseState d out) err dur rt).compile_error ≠ none ∨
        (finishParse (parseState d out) err dur rt).runtime_error ≠ none →
        (finishParse (parseState d out) err dur rt).tests_passed = 0 ∧
        (finishParse (parseState d out) err dur rt).tests_failed = 0 ∧
        (finishParse (parseState d out) err dur rt).tests_total = 0) := by
    unfold finishParse
    cases hce : (parseState d out).compile_error <;> cases rt <;>
      simp only [VerificationResult.with_output, VerificationResult.mkCompileError,
        VerificationResult.mkRuntimeError, VerificationResult.mkSuccess,
        VerificationResult.mkFailure]
    case none.none =>
      cases hb : ((parseState d out).build_success &&
          ((parseState d out).tests_failed == 0) &&
          decide ((parseState d out).tests_passed > 0)) <;>
        simp only [hb, if_true, if_false, Bool.false_eq_true] <;> simp
      have h0 : (parseState d out).tests_failed = 0 := by
        rcases Bool.and_eq_true_iff.1 hb with ⟨h1, _⟩
        exact beq_iff_eq.1 (Bool.and_eq_true_iff.1 h1).2
      rw [h0, Nat.add_zero]
    all_goals simp [U32]
  refine ⟨hmain.1, ?_, hmain.2⟩
  intro hlt
  rw [hmain.1]
  exact Nat.mod_eq_of_lt hlt

/-- The result of parsing a suite summary whose `u32` test counts sum to
`2 ^ 32`, wrapping `tests_total` to zero. -/
def bigRes : VerificationResult :=
  { success := false
    stdout := []
    stderr := []
    duration_ms := 0
    tests_passed := 4294967295
    tests_failed := 1
    tests_total := 0
    compile_error := none
    runtime_error := none
    resource_limit_hit := none }

/-- Witness for C10: the modular-sum theorem applied to a concrete passing
run. -/
theorem tests_total_is_u32_sum_witness :
    parse_cargo_output demoDecode jSuiteOk [] 9 = Except.ok suiteRes ∧
      (suiteRes.tests_total = (suiteRes.tests_passed + suiteRes.tests_failed) % U32 ∧
        (suiteRes.tests_passed + suiteRes.tests_failed < U32 →
          suiteRes.tests_total = suiteRes.tests_passed + suiteRes.tests_failed) ∧
        ((suiteRes.compile_error ≠ none ∨ suiteRes.runtime_error ≠ none) →
          suiteRes.tests_passed = 0 ∧ suiteRes.tests_failed = 0 ∧
            suiteRes.tests_total = 0)) :=
  ⟨by decide, tests_total_is_u32_sum demoDecode jSuiteOk [] 9 suiteRes (by decide)⟩

/-- Counterexample for C10 as frozen: a suite summary with `u32` counts
4294967295 passed and 1 failed makes the `u32` sum wrap, so
`tests_total` is 0 rather than `tests_passed + tests_failed`. -/
theorem tests_total_is_u32_sum_cex :
    parse_cargo_output demoDecode jSuiteBig [] 0 = Except.ok bigRes ∧
      bigRes.tests_total ≠ bigRes.tests_passed + bigRes.tests_failed := by decide

end Runner
